import Mathlib

/-!
Shallow embedding of `LinearDecayCorrelationModel.cpp` (namespace `csm`).

C++ `double` values are modelled as `ℚ`: every arithmetic operation the
claims exercise (absolute value, comparison, and the interpolation
arithmetic on the dyadic sample values of the spec) is exact in IEEE
double precision, so the rational model agrees with the compiled code on
those inputs.  `std::vector` becomes `List`, `size_t` becomes `ℕ`, the
`int` group-mapping entries become `ℤ`.  A C++ `throw` of `csm::Error`
becomes an explicit error value: accessors return `Except Error α`,
mutators return the new model paired with `Option Error` (the pair keeps
the original model when an error is raised, mirroring the fact that every
`throw` in the source happens before any write).  The one undefined
behaviour in the source — `getCorrelationCoefficient` reads element 0 of
the per-group vectors without checking that they are non-empty — is made
explicit by an outer `Option`: `none` marks the out-of-bounds read.
-/

namespace csm

/-- Error kinds used by the source (`Error::BOUNDS`,
`Error::INDEX_OUT_OF_RANGE`). -/
inductive ErrorKind where
  | BOUNDS
  | INDEX_OUT_OF_RANGE
deriving DecidableEq, Repr

/-- The `csm::Error` payload: kind, message and originating module. -/
structure Error where
  theError : ErrorKind
  theMessage : String
  theModule : String
deriving DecidableEq, Repr

/-- `LinearDecayCorrelationModel::Parameters`: per-group decay curve, a
pair of lists (correlations and segment start times). -/
structure Parameters where
  theInitialCorrsPerSegment : List ℚ
  theTimesPerSegment : List ℚ
deriving DecidableEq, Repr

/-- The state of a `LinearDecayCorrelationModel`: the group mapping
(entries initialised to `-1`, i.e. unassigned) and the per-group curve
store. -/
structure LinearDecayCorrelationModel where
  theGroupMapping : List ℤ
  theCorrParams : List Parameters
deriving DecidableEq, Repr

namespace LinearDecayCorrelationModel

/-- The constructor
`LinearDecayCorrelationModel(size_t numSMParams, size_t numCPGroups)`.
Faithful to the source: `theGroupMapping(numSMParams, -1)` and
`theCorrParams(numSMParams)` — the `numCPGroups` argument is not used by
the constructor body. -/
def construct (numSMParams numCPGroups : ℕ) : LinearDecayCorrelationModel :=
  LinearDecayCorrelationModel.mk
    (List.replicate numSMParams (-1))
    (List.replicate numSMParams (Parameters.mk [] []))

/-- `getNumSensorModelParameters`: returns `theGroupMapping.size()`. -/
def getNumSensorModelParameters (m : LinearDecayCorrelationModel) : ℕ :=
  m.theGroupMapping.length

/-- `getNumCorrelationParameterGroups`: returns `theCorrParams.size()`. -/
def getNumCorrelationParameterGroups (m : LinearDecayCorrelationModel) : ℕ :=
  m.theCorrParams.length

/-- `checkSensorModelParameterIndex`: raises `INDEX_OUT_OF_RANGE` when
`smParamIndex >= theGroupMapping.size()`. -/
def checkSensorModelParameterIndex (m : LinearDecayCorrelationModel)
    (smParamIndex : ℕ) (functionName : String) : Option Error :=
  if m.theGroupMapping.length ≤ smParamIndex then
    some (Error.mk ErrorKind.INDEX_OUT_OF_RANGE
      "Sensor model parameter index is out of range."
      ("csm::LinearDecayCorrelationModel::" ++ functionName))
  else none

/-- `checkParameterGroupIndex`: raises `INDEX_OUT_OF_RANGE` when
`groupIndex >= theCorrParams.size()`. -/
def checkParameterGroupIndex (m : LinearDecayCorrelationModel)
    (groupIndex : ℕ) (functionName : String) : Option Error :=
  if m.theCorrParams.length ≤ groupIndex then
    some (Error.mk ErrorKind.INDEX_OUT_OF_RANGE
      "Correlation parameter group index is out of range."
      ("csm::LinearDecayCorrelationModel::" ++ functionName))
  else none

/-- `getCorrelationParameterGroup`: bounds-check, then read the mapping
entry.  The `getD` default is never used: the check guarantees the index
is in range. -/
def getCorrelationParameterGroup (m : LinearDecayCorrelationModel)
    (smParamIndex : ℕ) : Except Error ℤ :=
  match checkSensorModelParameterIndex m smParamIndex
      "getCorrelationParameterGroup" with
  | some e => Except.error e
  | none => Except.ok (m.theGroupMapping.getD smParamIndex (-1))

/-- `setCorrelationParameterGroup`: two bounds checks, then overwrite the
mapping entry. -/
def setCorrelationParameterGroup (m : LinearDecayCorrelationModel)
    (smParamIndex cpGroupIndex : ℕ) :
    LinearDecayCorrelationModel × Option Error :=
  match checkSensorModelParameterIndex m smParamIndex
      "setCorrelationParameterGroup" with
  | some e => (m, some e)
  | none =>
    match checkParameterGroupIndex m cpGroupIndex
        "setCorrelationParameterGroup" with
    | some e => (m, some e)
    | none =>
      (LinearDecayCorrelationModel.mk
        (m.theGroupMapping.set smParamIndex (cpGroupIndex : ℤ))
        m.theCorrParams, none)

/-- The `MODULE` constant of `setCorrelationGroupParameters`. -/
def setCurveModule : String :=
  "csm::LinearDecayCorrelationModel::setCorrelationGroupParameters"

/-- A `BOUNDS` error raised from `setCorrelationGroupParameters`. -/
def boundsError (msg : String) : Error :=
  Error.mk ErrorKind.BOUNDS msg setCurveModule

/-- The body of the validation loop of `setCorrelationGroupParameters`
for indices `i ≥ 1`: carries `prevCorr`/`prevTime` and walks the two
lists in step.  (The equal-length check has already run, so the
mixed-length base cases are unreachable on the inputs the source
exercises.) -/
def validationLoopRest : ℚ → ℚ → List ℚ → List ℚ → Option Error
  | _, _, [], _ => none
  | _, _, _ :: _, [] => none
  | prevCorr, prevTime, corr :: cs, time :: ts =>
    if corr < 0 ∨ 1 < corr then
      some (boundsError "Correlation must be in range [0..1].")
    else if prevCorr < corr then
      some (boundsError "Correlation must be monotomically decreasing.")
    else if time < prevTime then
      some (boundsError "Time must be monotomically increasing.")
    else validationLoopRest corr time cs ts

/-- The validation loop of `setCorrelationGroupParameters` (`for i = 0 ..
size-1`): iteration `0` only range-checks the first correlation, later
iterations also compare against the previous breakpoint. -/
def validationLoop (params : Parameters) : Option Error :=
  match params.theInitialCorrsPerSegment, params.theTimesPerSegment with
  | corr :: cs, time :: ts =>
    if corr < 0 ∨ 1 < corr then
      some (boundsError "Correlation must be in range [0..1].")
    else validationLoopRest corr time cs ts
  | _, _ => none

/-- `setCorrelationGroupParameters(cpGroupIndex, params)`: bounds check,
equal-length check, validation loop when `size > 1`, then store the
curve. -/
def setCorrelationGroupParameters (m : LinearDecayCorrelationModel)
    (cpGroupIndex : ℕ) (params : Parameters) :
    LinearDecayCorrelationModel × Option Error :=
  match checkParameterGroupIndex m cpGroupIndex
      "setCorrelationGroupParameters" with
  | some e => (m, some e)
  | none =>
    if params.theInitialCorrsPerSegment.length ≠
        params.theTimesPerSegment.length then
      (m, some (boundsError "Must have equal number of correlations and times."))
    else if 1 < params.theInitialCorrsPerSegment.length then
      match validationLoop params with
      | some e => (m, some e)
      | none =>
        (LinearDecayCorrelationModel.mk m.theGroupMapping
          (m.theCorrParams.set cpGroupIndex params), none)
    else
      (LinearDecayCorrelationModel.mk m.theGroupMapping
        (m.theCorrParams.set cpGroupIndex params), none)

/-- The scan loop of `getCorrelationCoefficient` (`for s = 1 .. size-1`):
arguments are the remaining correlations, the remaining times,
`prevCorr`, `prevTime`, the running `correlation` and `adt`. -/
def correlationLoop : List ℚ → List ℚ → ℚ → ℚ → ℚ → ℚ → ℚ
  | [], _, _, _, correlation, _ => correlation
  | _ :: _, [], _, _, correlation, _ => correlation
  | corr :: cs, time :: ts, prevCorr, prevTime, correlation, adt =>
    if adt ≤ time then
      if time - prevTime ≠ 0 then
        prevCorr + (adt - prevTime) / (time - prevTime) * (corr - prevCorr)
      else correlation
    else correlationLoop cs ts corr time corr adt

/-- The final clamp of `getCorrelationCoefficient` into `[0, 1]`. -/
def clampCorrelation (correlation : ℚ) : ℚ :=
  if correlation < 0 then 0 else if 1 < correlation then 1 else correlation

/-- `getCorrelationCoefficient(cpGroupIndex, deltaTime)`: bounds check,
then evaluate the stored curve at `adt = fabs(deltaTime)` and clamp.  The
outer `none` marks the undefined out-of-bounds read the source performs
when the stored curve has an empty correlation or time list. -/
def getCorrelationCoefficient (m : LinearDecayCorrelationModel)
    (cpGroupIndex : ℕ) (deltaTime : ℚ) : Option (Except Error ℚ) :=
  match checkParameterGroupIndex m cpGroupIndex
      "getCorrelationCoefficient" with
  | some e => some (Except.error e)
  | none =>
    match m.theCorrParams[cpGroupIndex]? with
    | none => none
    | some cp =>
      match cp.theInitialCorrsPerSegment, cp.theTimesPerSegment with
      | corr0 :: cs, time0 :: ts =>
        some (Except.ok (clampCorrelation
          (correlationLoop cs ts corr0 time0 corr0 (abs deltaTime))))
      | _, _ => none

/-- `getCorrelationGroupParameters`: bounds check, then read the stored
curve.  The `getD` default is never used: the check guarantees the index
is in range. -/
def getCorrelationGroupParameters (m : LinearDecayCorrelationModel)
    (cpGroupIndex : ℕ) : Except Error Parameters :=
  match checkParameterGroupIndex m cpGroupIndex
      "getCorrelationGroupParameters" with
  | some e => Except.error e
  | none => Except.ok (m.theCorrParams.getD cpGroupIndex (Parameters.mk [] []))

/-- States reachable from a constructor call through the two mutators of
the class. -/
inductive Reachable : LinearDecayCorrelationModel → Prop where
  | construct (numSMParams numCPGroups : ℕ) :
      Reachable (construct numSMParams numCPGroups)
  | setGroup (m : LinearDecayCorrelationModel) (i g : ℕ) :
      Reachable m → Reachable (setCorrelationParameterGroup m i g).1
  | setParams (m : LinearDecayCorrelationModel) (g : ℕ) (p : Parameters) :
      Reachable m → Reachable (setCorrelationGroupParameters m g p).1

end LinearDecayCorrelationModel

end csm

open csm csm.LinearDecayCorrelationModel

/-- The sample curve of the spec's testable properties:
`times=[0,10,20]`, `correlations=[1.0,0.5,0.0]`. -/
def sampleParams : Parameters := Parameters.mk [1, 1/2, 0] [0, 10, 20]

/-- A one-group model holding `sampleParams`. -/
def sampleModel : LinearDecayCorrelationModel :=
  LinearDecayCorrelationModel.mk [] [sampleParams]

/-- A one-group model whose stored curve starts at a positive breakpoint
time: `times=[10,20]`, `correlations=[0.75,0.25]` (a curve accepted by
`setCorrelationGroupParameters`). -/
def lateStartModel : LinearDecayCorrelationModel :=
  LinearDecayCorrelationModel.mk [] [Parameters.mk [3/4, 1/4] [10, 20]]

/-- The degenerate zero-width curve of the spec: `times=[5,5]`,
`correlations=[0.8,0.8]`. -/
def degenerateParams : Parameters := Parameters.mk [4/5, 4/5] [5, 5]

/-- A one-group model holding `degenerateParams`. -/
def degenerateModel : LinearDecayCorrelationModel :=
  LinearDecayCorrelationModel.mk [] [degenerateParams]

/-- A single-breakpoint curve whose correlation value `2` lies outside
`[0,1]`. -/
def outOfRangeSingleton : Parameters := Parameters.mk [2] [0]

/-- A two-breakpoint candidate curve whose second correlation value `2`
lies outside `[0,1]`. -/
def outOfRangePair : Parameters := Parameters.mk [1, 2] [0, 1]

theorem lt_length_of_getElem_eq_some {α : Type} {l : List α} {i : ℕ} {a : α}
    (h : l[i]? = some a) : i < l.length := by
  by_contra hn
  push_neg at hn
  rw [List.getElem?_eq_none hn] at h
  cases h

theorem clampCorrelation_of_unit {x : ℚ} (h0 : 0 ≤ x) (h1 : x ≤ 1) :
    clampCorrelation x = x := by
  unfold clampCorrelation
  rw [if_neg (not_lt.mpr h0), if_neg (not_lt.mpr h1)]

theorem clampCorrelation_nonneg (x : ℚ) : 0 ≤ clampCorrelation x := by
  unfold clampCorrelation
  split_ifs with h0 h1 <;> [exact le_refl 0; norm_num; exact not_lt.mp h0]

theorem clampCorrelation_le_one (x : ℚ) : clampCorrelation x ≤ 1 := by
  unfold clampCorrelation
  split_ifs with h0 h1 <;> [norm_num; exact le_refl 1; exact not_lt.mp h1]

theorem setGroup_fst_cases (m : LinearDecayCorrelationModel) (i g : ℕ) :
    (setCorrelationParameterGroup m i g).1 = m ∨
    (setCorrelationParameterGroup m i g).1 =
      LinearDecayCorrelationModel.mk (m.theGroupMapping.set i (g : ℤ))
        m.theCorrParams := by
  unfold setCorrelationParameterGroup
  split
  · exact Or.inl rfl
  · split
    · exact Or.inl rfl
    · exact Or.inr rfl

theorem setParams_all_or_nothing (m : LinearDecayCorrelationModel) (g : ℕ)
    (p : Parameters) :
    ((setCorrelationGroupParameters m g p).2 ≠ none ∧
      (setCorrelationGroupParameters m g p).1 = m) ∨
    ((setCorrelationGroupParameters m g p).2 = none ∧
      (setCorrelationGroupParameters m g p).1 =
        LinearDecayCorrelationModel.mk m.theGroupMapping
          (m.theCorrParams.set g p)) := by
  unfold setCorrelationGroupParameters
  split
  · exact Or.inl ⟨by simp, rfl⟩
  · split_ifs with h2 h3
    · exact Or.inl ⟨by simp, rfl⟩
    · split
      · exact Or.inl ⟨by simp, rfl⟩
      · exact Or.inr ⟨rfl, rfl⟩
    · exact Or.inr ⟨rfl, rfl⟩

/-- C1: the claim says `getNumCorrelationParameterGroups` returns the
`numGroups` count the model was constructed with.  The constructor in the
source ignores its `numCPGroups` argument and sizes `theCorrParams` with
`numSMParams`, so a model constructed with `numSMParams = 2` and
`numCPGroups = 3` reports `2` groups, not `3`. -/
theorem claim_C1_group_count_uses_numSMParams :
    getNumCorrelationParameterGroups (construct 2 3) = 2 ∧
    getNumSensorModelParameters (construct 2 3) = 2 ∧ (2 : ℕ) ≠ 3 :=
  ⟨rfl, rfl, by norm_num⟩

/-- C4: the claim says group indices strictly below `numGroups` never
raise `IndexOutOfRange`.  In the source, group indices are checked
against `theCorrParams.size()`, which the constructor sets to
`numSMParams`: on a model constructed with `numSMParams = 2`,
`numCPGroups = 5`, evaluating group `3 < 5` raises
`INDEX_OUT_OF_RANGE`. -/
theorem claim_C4_group_index_checked_against_numSMParams :
    3 < 5 ∧
    ∃ e, getCorrelationCoefficient (construct 2 5) 3 0 =
      some (Except.error e) ∧ e.theError = ErrorKind.INDEX_OUT_OF_RANGE :=
  ⟨by norm_num,
    Error.mk ErrorKind.INDEX_OUT_OF_RANGE
      "Correlation parameter group index is out of range."
      ("csm::LinearDecayCorrelationModel::" ++ "getCorrelationCoefficient"),
    rfl, rfl⟩

/-- C6: `setCorrelationGroupParameters` is all-or-nothing: on any failure
(the second component is an error) the model is returned unmodified, and
on success the model is unchanged except that the curve stored for the
given group is replaced in full by the candidate curve. -/
theorem claim_C6_setCurve_all_or_nothing (m : LinearDecayCorrelationModel)
    (g : ℕ) (p : Parameters) :
    ((setCorrelationGroupParameters m g p).2 ≠ none ∧
      (setCorrelationGroupParameters m g p).1 = m) ∨
    ((setCorrelationGroupParameters m g p).2 = none ∧
      (setCorrelationGroupParameters m g p).1 =
        LinearDecayCorrelationModel.mk m.theGroupMapping
          (m.theCorrParams.set g p)) :=
  setParams_all_or_nothing m g p

/-- C7: `getCorrelationCoefficient` is symmetric in the time direction:
only `fabs(deltaTime)` enters the computation, so negating the input
changes nothing (the outcome — error, undefined read, or value — is
identical). -/
theorem claim_C7_time_symmetry (m : LinearDecayCorrelationModel) (g : ℕ)
    (t : ℚ) :
    getCorrelationCoefficient m g t = getCorrelationCoefficient m g (-t) := by
  simp only [getCorrelationCoefficient, abs_neg]

/-- C10: in every reachable state, `getNumSensorModelParameters` equals
`getNumCorrelationParameterGroups`: the constructor sizes both containers
with `numSMParams` and the mutators only overwrite entries, never
resize. -/
theorem claim_C10_sizes_invariant (m : LinearDecayCorrelationModel)
    (h : Reachable m) :
    getNumSensorModelParameters m = getNumCorrelationParameterGroups m := by
  induction h with
  | construct n k =>
    simp [construct, getNumSensorModelParameters,
      getNumCorrelationParameterGroups]
  | setGroup m i g hr ih =>
    rcases setGroup_fst_cases m i g with hf | hf <;> rw [hf]
    · exact ih
    · simpa [getNumSensorModelParameters, getNumCorrelationParameterGroups,
        List.length_set] using ih
  | setParams m g p hr ih =>
    rcases setParams_all_or_nothing m g p with ⟨_, hf⟩ | ⟨_, hf⟩ <;> rw [hf]
    · exact ih
    · simpa [getNumSensorModelParameters, getNumCorrelationParameterGroups,
        List.length_set] using ih

/-- C10 witness: the invariant instantiated at a freshly constructed
model. -/
theorem claim_C10_witness :
    getNumSensorModelParameters (construct 1 2) =
      getNumCorrelationParameterGroups (construct 1 2) :=
  claim_C10_sizes_invariant (construct 1 2) (Reachable.construct 1 2)

theorem validationLoopRest_isBounds :
    ∀ (cs ts : List ℚ) (pc pt : ℚ) (e : Error),
      validationLoopRest pc pt cs ts = some e →
      e.theError = ErrorKind.BOUNDS := by
  intro cs
  induction cs with
  | nil => intro ts pc pt e h; simp [validationLoopRest] at h
  | cons c cs ih =>
    intro ts pc pt e h
    cases ts with
    | nil => simp [validationLoopRest] at h
    | cons t ts =>
      simp only [validationLoopRest] at h
      split_ifs at h with h1 h2 h3
      · rw [← Option.some.inj h]; rfl
      · rw [← Option.some.inj h]; rfl
      · rw [← Option.some.inj h]; rfl
      · exact ih ts c t e h

theorem validationLoop_isBounds (p : Parameters) (e : Error)
    (h : validationLoop p = some e) : e.theError = ErrorKind.BOUNDS := by
  unfold validationLoop at h
  split at h
  · split_ifs at h with h1
    · rw [← Option.some.inj h]; rfl
    · exact validationLoopRest_isBounds _ _ _ _ e h
  · cases h

theorem validationLoopRest_none_range :
    ∀ (cs ts : List ℚ) (pc pt : ℚ),
      validationLoopRest pc pt cs ts = none →
      cs.length ≤ ts.length → ∀ c ∈ cs, 0 ≤ c ∧ c ≤ 1 := by
  intro cs
  induction cs with
  | nil => intro ts pc pt h hlen c hc; simp at hc
  | cons c0 cs ih =>
    intro ts pc pt h hlen c hc
    cases ts with
    | nil => simp at hlen
    | cons t0 ts =>
      simp only [validationLoopRest] at h
      split_ifs at h with h1 h2 h3
      push_neg at h1
      rcases List.mem_cons.mp hc with rfl | hc'
      · exact ⟨h1.1, h1.2⟩
      · exact ih ts c0 t0 h (by simpa using hlen) c hc'

theorem validationLoop_none_range (p : Parameters)
    (h : validationLoop p = none)
    (hlen : p.theInitialCorrsPerSegment.length ≤
      p.theTimesPerSegment.length) :
    ∀ c ∈ p.theInitialCorrsPerSegment, 0 ≤ c ∧ c ≤ 1 := by
  intro c hc
  rcases hcorr : p.theInitialCorrsPerSegment with _ | ⟨corr0, cs⟩
  · rw [hcorr] at hc; simp at hc
  · rcases htime : p.theTimesPerSegment with _ | ⟨t0, ts⟩
    · rw [hcorr, htime] at hlen; simp at hlen
    · unfold validationLoop at h
      rw [hcorr, htime] at h hlen
      simp only at h
      split_ifs at h with h1
      push_neg at h1
      rw [hcorr] at hc
      rcases List.mem_cons.mp hc with rfl | hc'
      · exact ⟨h1.1, h1.2⟩
      · exact validationLoopRest_none_range cs ts corr0 t0 h
          (by simpa using hlen) c hc'

/-- C2 counterexample: the stored curve `times=[10,20]`,
`correlations=[0.75,0.25]` is non-empty and `adt = 0` is below its first
breakpoint time `10`, yet `getCorrelationCoefficient` returns `1`, not
the first correlation value `0.75`: the loop extrapolates the first
segment backwards and the clamp caps the result at `1`. -/
theorem claim_C2_counterexample_left_edge :
    getCorrelationCoefficient lateStartModel 0 0 = some (Except.ok 1) ∧
    (0 : ℚ) ≤ 10 ∧ (1 : ℚ) ≠ 3/4 := by
  refine ⟨?_, by norm_num, by norm_num⟩
  simp only [getCorrelationCoefficient, checkParameterGroupIndex,
    lateStartModel]
  norm_num [correlationLoop, clampCorrelation]

/-- C2 (amended): for a stored non-empty curve whose first correlation
value lies in `[0,1]` and whose times are non-decreasing, evaluation
returns the first correlation value when `adt` equals the first
breakpoint's time, and likewise for any `adt` at or below that time when
the curve has a single breakpoint.  (For `adt` strictly below a positive
first breakpoint time on a multi-breakpoint curve the code instead
returns the clamped backward extrapolation of the first segment.) -/
theorem claim_C2_first_breakpoint_value (m : LinearDecayCorrelationModel)
    (g : ℕ) (cp : Parameters) (c0 t0 : ℚ) (cs ts : List ℚ) (dt : ℚ)
    (hcp : m.theCorrParams[g]? = some cp)
    (hc : cp.theInitialCorrsPerSegment = c0 :: cs)
    (ht : cp.theTimesPerSegment = t0 :: ts)
    (h0 : 0 ≤ c0) (h1 : c0 ≤ 1)
    (hmono : List.Chain' (fun a b => a ≤ b) (t0 :: ts))
    (hdt : abs dt = t0 ∨ (cs = [] ∧ abs dt ≤ t0)) :
    getCorrelationCoefficient m g dt = some (Except.ok c0) := by
  have hg : g < m.theCorrParams.length := lt_length_of_getElem_eq_some hcp
  have hcheck :
      checkParameterGroupIndex m g "getCorrelationCoefficient" = none := by
    unfold checkParameterGroupIndex
    rw [if_neg (not_le.mpr hg)]
  have hloop : correlationLoop cs ts c0 t0 c0 (abs dt) = c0 := by
    rcases hdt with hdt | ⟨hcs, _⟩
    · cases cs with
      | nil => simp [correlationLoop]
      | cons c1 cs' =>
        cases ts with
        | nil => simp [correlationLoop]
        | cons t1 ts' =>
          have ht01 : t0 ≤ t1 := (List.chain'_cons.mp hmono).1
          simp only [correlationLoop]
          rw [hdt, if_pos ht01]
          split_ifs with hdenom
          · rw [sub_self, zero_div, zero_mul, add_zero]
          · rfl
    · subst hcs; simp [correlationLoop]
  simp only [getCorrelationCoefficient, hcheck, hcp, hc, ht, hloop,
    clampCorrelation_of_unit h0 h1]

/-- C2 witness: the amended statement instantiated on the spec's sample
curve at `deltaTime = 0` (whose magnitude equals the first breakpoint
time `0`). -/
theorem claim_C2_witness :
    (sampleModel.theCorrParams[0]? = some sampleParams ∧
     sampleParams.theInitialCorrsPerSegment = 1 :: [1/2, 0] ∧
     sampleParams.theTimesPerSegment = 0 :: [10, 20] ∧
     (0 : ℚ) ≤ 1 ∧ (1 : ℚ) ≤ 1 ∧
     List.Chain' (fun a b => a ≤ b) ((0 : ℚ) :: [10, 20]) ∧
     (abs (0 : ℚ) = 0 ∨ ([(1 : ℚ)/2, 0] = [] ∧ abs (0 : ℚ) ≤ 0))) ∧
    getCorrelationCoefficient sampleModel 0 0 = some (Except.ok 1) :=
  ⟨⟨rfl, rfl, rfl, by norm_num, by norm_num,
    by simp [List.chain'_cons]; norm_num, Or.inl (by simp)⟩,
   claim_C2_first_breakpoint_value sampleModel 0 sampleParams 1 0
     [1/2, 0] [10, 20] 0 rfl rfl rfl (by norm_num) (by norm_num)
     (by simp [List.chain'_cons]; norm_num) (Or.inl (by simp))⟩

/-- C3 counterexample: the claim says a `Bounds` failure is raised for a
correlation value outside `[0,1]` even on a single-breakpoint curve, and
that a curve is installed only when every value is in `[0,1]`.  The
validation loop only runs when `size > 1`, so the one-breakpoint curve
`correlations=[2]`, `times=[0]` is installed on a valid group with no
error although `2 > 1`. -/
theorem claim_C3_counterexample_single_breakpoint :
    (setCorrelationGroupParameters (construct 1 1) 0 outOfRangeSingleton).2 =
      none ∧
    (setCorrelationGroupParameters (construct 1 1) 0
        outOfRangeSingleton).1.theCorrParams = [outOfRangeSingleton] ∧
    ¬ ((2 : ℚ) ≤ 1) := by
  refine ⟨?_, ?_, by norm_num⟩ <;>
    simp [setCorrelationGroupParameters, checkParameterGroupIndex, construct,
      outOfRangeSingleton]

/-- C3 (amended): restricted to candidate curves with at least two
breakpoints (and equal-length sequences, on a valid group index):
whenever some correlation value lies outside `[0,1]`,
`setCorrelationGroupParameters` raises a `BOUNDS` failure, and a curve is
installed (no error) only when every correlation value lies in `[0,1]`.
Curves with zero or one breakpoint bypass the validation loop
entirely. -/
theorem claim_C3_bounds_validation (m : LinearDecayCorrelationModel)
    (g : ℕ) (p : Parameters)
    (hg : g < m.theCorrParams.length)
    (hlen : p.theInitialCorrsPerSegment.length =
      p.theTimesPerSegment.length)
    (hsize : 1 < p.theInitialCorrsPerSegment.length) :
    ((setCorrelationGroupParameters m g p).2 = none →
      ∀ c ∈ p.theInitialCorrsPerSegment, 0 ≤ c ∧ c ≤ 1) ∧
    ((∃ c ∈ p.theInitialCorrsPerSegment, c < 0 ∨ 1 < c) →
      ∃ e, (setCorrelationGroupParameters m g p).2 = some e ∧
        e.theError = ErrorKind.BOUNDS) := by
  have hcheck :
      checkParameterGroupIndex m g "setCorrelationGroupParameters" = none := by
    unfold checkParameterGroupIndex
    rw [if_neg (not_le.mpr hg)]
  simp only [setCorrelationGroupParameters, hcheck,
    if_neg (not_ne_iff.mpr hlen), if_pos hsize]
  cases hv : validationLoop p with
  | some e =>
    constructor
    · intro h; simp at h
    · intro _
      exact ⟨e, rfl, validationLoop_isBounds p e hv⟩
  | none =>
    constructor
    · intro _
      exact validationLoop_none_range p hv (le_of_eq hlen)
    · rintro ⟨c, hcmem, hcout⟩
      rcases validationLoop_none_range p hv (le_of_eq hlen) c hcmem with
        ⟨hc0, hc1⟩
      rcases hcout with hlt | hgt
      · exact absurd hlt (not_lt.mpr hc0)
      · exact absurd hgt (not_lt.mpr hc1)

/-- C3 witness: the amended statement instantiated on a two-breakpoint
candidate curve with an out-of-range correlation value. -/
theorem claim_C3_witness :
    ((0 < (construct 1 1).theCorrParams.length) ∧
     outOfRangePair.theInitialCorrsPerSegment.length =
       outOfRangePair.theTimesPerSegment.length ∧
     1 < outOfRangePair.theInitialCorrsPerSegment.length) ∧
    (((setCorrelationGroupParameters (construct 1 1) 0 outOfRangePair).2 =
        none →
      ∀ c ∈ outOfRangePair.theInitialCorrsPerSegment, 0 ≤ c ∧ c ≤ 1) ∧
     ((∃ c ∈ outOfRangePair.theInitialCorrsPerSegment, c < 0 ∨ 1 < c) →
      ∃ e, (setCorrelationGroupParameters (construct 1 1) 0
          outOfRangePair).2 = some e ∧
        e.theError = ErrorKind.BOUNDS)) :=
  ⟨⟨by simp [construct], by simp [outOfRangePair], by simp [outOfRangePair]⟩,
   claim_C3_bounds_validation (construct 1 1) 0 outOfRangePair
     (by simp [construct]) (by simp [outOfRangePair])
     (by simp [outOfRangePair])⟩

/-- C5: on any model whose group `g` stores the sample curve
`times=[0,10,20]`, `correlations=[1,0.5,0]`, evaluation yields `1` at
`Δt=0`, `0.75` at `Δt=5`, `0.25` at `Δt=15`, `0` at `Δt=20`, and `0` at
`Δt=25` (flat extrapolation past the last breakpoint). -/
theorem claim_C5_sample_curve_values (m : LinearDecayCorrelationModel)
    (g : ℕ) (h : m.theCorrParams[g]? = some sampleParams) :
    getCorrelationCoefficient m g 0 = some (Except.ok 1) ∧
    getCorrelationCoefficient m g 5 = some (Except.ok (3/4)) ∧
    getCorrelationCoefficient m g 15 = some (Except.ok (1/4)) ∧
    getCorrelationCoefficient m g 20 = some (Except.ok 0) ∧
    getCorrelationCoefficient m g 25 = some (Except.ok 0) := by
  have hg : g < m.theCorrParams.length := lt_length_of_getElem_eq_some h
  have hcheck :
      checkParameterGroupIndex m g "getCorrelationCoefficient" = none := by
    unfold checkParameterGroupIndex
    rw [if_neg (not_le.mpr hg)]
  refine ⟨?_, ?_, ?_, ?_, ?_⟩ <;>
  · simp only [getCorrelationCoefficient, hcheck, h, sampleParams]
    norm_num [correlationLoop, clampCorrelation, abs_of_nonneg]

/-- C5 witness: the sample-curve values on a concrete one-group model. -/
theorem claim_C5_witness :
    sampleModel.theCorrParams[0]? = some sampleParams ∧
    (getCorrelationCoefficient sampleModel 0 0 = some (Except.ok 1) ∧
     getCorrelationCoefficient sampleModel 0 5 = some (Except.ok (3/4)) ∧
     getCorrelationCoefficient sampleModel 0 15 = some (Except.ok (1/4)) ∧
     getCorrelationCoefficient sampleModel 0 20 = some (Except.ok 0) ∧
     getCorrelationCoefficient sampleModel 0 25 = some (Except.ok 0)) :=
  ⟨rfl, claim_C5_sample_curve_values sampleModel 0 rfl⟩

/-- C8: for a valid group index holding a non-empty stored curve,
`getCorrelationCoefficient` returns a value, and that value lies in
`[0,1]` (the final clamp guarantees the range). -/
theorem claim_C8_result_in_unit_interval (m : LinearDecayCorrelationModel)
    (g : ℕ) (dt : ℚ) (cp : Parameters)
    (hcp : m.theCorrParams[g]? = some cp)
    (hc : cp.theInitialCorrsPerSegment ≠ [])
    (ht : cp.theTimesPerSegment ≠ []) :
    ∃ r, getCorrelationCoefficient m g dt = some (Except.ok r) ∧
      0 ≤ r ∧ r ≤ 1 := by
  have hg : g < m.theCorrParams.length := lt_length_of_getElem_eq_some hcp
  have hcheck :
      checkParameterGroupIndex m g "getCorrelationCoefficient" = none := by
    unfold checkParameterGroupIndex
    rw [if_neg (not_le.mpr hg)]
  rcases List.exists_cons_of_ne_nil hc with ⟨c0, cs, hc'⟩
  rcases List.exists_cons_of_ne_nil ht with ⟨t0, ts, ht'⟩
  refine ⟨clampCorrelation (correlationLoop cs ts c0 t0 c0 (abs dt)), ?_,
    clampCorrelation_nonneg _, clampCorrelation_le_one _⟩
  simp only [getCorrelationCoefficient, hcheck, hcp, hc', ht']

/-- C8 witness: the range guarantee instantiated on the sample model at
`Δt = 7`. -/
theorem claim_C8_witness :
    (sampleModel.theCorrParams[0]? = some sampleParams ∧
     sampleParams.theInitialCorrsPerSegment ≠ [] ∧
     sampleParams.theTimesPerSegment ≠ []) ∧
    ∃ r, getCorrelationCoefficient sampleModel 0 7 =
      some (Except.ok r) ∧ 0 ≤ r ∧ r ≤ 1 :=
  ⟨⟨rfl, by simp [sampleParams], by simp [sampleParams]⟩,
   claim_C8_result_in_unit_interval sampleModel 0 7 sampleParams rfl
     (by simp [sampleParams]) (by simp [sampleParams])⟩

/-- C9: on any model whose group `g` stores the degenerate zero-width
curve `times=[5,5]`, `correlations=[0.8,0.8]`, evaluation at `Δt = 5`
takes the guarded branch (the interpolation quotient is never formed
because `time - prevTime = 0`) and returns the earlier breakpoint's
correlation `0.8`. -/
theorem claim_C9_degenerate_segment (m : LinearDecayCorrelationModel)
    (g : ℕ) (h : m.theCorrParams[g]? = some degenerateParams) :
    getCorrelationCoefficient m g 5 = some (Except.ok (4/5)) := by
  have hg : g < m.theCorrParams.length := lt_length_of_getElem_eq_some h
  have hcheck :
      checkParameterGroupIndex m g "getCorrelationCoefficient" = none := by
    unfold checkParameterGroupIndex
    rw [if_neg (not_le.mpr hg)]
  simp only [getCorrelationCoefficient, hcheck, h, degenerateParams]
  norm_num [correlationLoop, clampCorrelation, abs_of_nonneg]

/-- C9 witness: the degenerate-segment value on a concrete one-group
model. -/
theorem claim_C9_witness :
    degenerateModel.theCorrParams[0]? = some degenerateParams ∧
    getCorrelationCoefficient degenerateModel 0 5 =
      some (Except.ok (4/5)) :=
  ⟨rfl, claim_C9_degenerate_segment degenerateModel 0 rfl⟩
